import Mathlib

/-!
Verification of the trivia API backend (`backend/flaskr/__init__.py`).

The Flask request handlers are shallowly embedded as pure functions over an
explicit `Store` (the relational database state).  Each handler returns a pair
of an `Except Nat body` (the HTTP outcome: `.error c` is an `abort(c)` routed
through the registered error handlers, `.ok b` a JSON success body) and the
store after the request.  Python list slices are embedded with their exact
semantics (negative indices included), and the SQL `ILIKE` filter used by the
search endpoint is embedded as a pattern matcher over characters, with `%`, `_`
and the backslash escape behaving as in the database engine.
-/

namespace Trivia

/-- A persisted question row: `{id, question, answer, difficulty, category}`. -/
structure Question where
  id : Nat
  question : List Char
  answer : List Char
  difficulty : Int
  category : Nat
deriving DecidableEq, Inhabited

/-- A persisted category row: `{id, type}`. -/
structure Category where
  id : Nat
  type : List Char
deriving DecidableEq, Inhabited

/-- The relational store: the `questions` and `categories` tables. -/
structure Store where
  questions : List Question
  categories : List Category
deriving DecidableEq, Inhabited

/-- A question as serialised into a JSON response. -/
structure FormattedQuestion where
  id : Nat
  question : List Char
  answer : List Char
  category : Nat
  difficulty : Int
deriving DecidableEq, Inhabited

/-- Modelled from the spec: `Question.format` from `models.py` (absent from
`src/`), serialising the five data-model fields of §3 into the response dict. -/
def Question.format (q : Question) : FormattedQuestion :=
  { id := q.id, question := q.question, answer := q.answer,
    category := q.category, difficulty := q.difficulty }

def QUESTIONS_PER_PAGE : Nat := 10

/-- Normalisation of one Python slice index against a list of length `n`:
a negative index counts from the end (clamped below at 0), a non-negative
index is clamped above at `n`. -/
def pyIdx (n : Nat) (i : Int) : Nat :=
  if i < 0 then ((n : Int) + i).toNat else min i.toNat n

/-- The Python slice `l[i:j]` for integer `i`, `j`: the elements whose position lies in
the half-open window given by the two normalised indices. -/
def pySlice (l : List α) (i j : Int) : List α :=
  (l.take (pyIdx l.length j)).drop (pyIdx l.length i)

/-- `paginate_questions`: formats the selection and returns the slice
`questions[start:end]` with `start = (page-1)*10`, `end = start+10`. -/
def paginate_questions (page : Int) (selection : List Question) :
    List FormattedQuestion :=
  let start : Int := (page - 1) * (QUESTIONS_PER_PAGE : Int)
  let stop : Int := start + (QUESTIONS_PER_PAGE : Int)
  let questions := selection.map Question.format
  pySlice questions start stop

/-- Lexicographic comparison of character lists, for `order_by(Category.type)`. -/
def charListLe : List Char → List Char → Bool
  | [], _ => true
  | _ :: _, [] => false
  | a :: as, b :: bs => if a = b then charListLe as bs else decide (a < b)

/-- One insertion step of the stable insertion sort used to embed `order_by`. -/
def insertSorted (le : α → α → Bool) (a : α) : List α → List α
  | [] => [a]
  | b :: l => if le a b then a :: b :: l else b :: insertSorted le a l

/-- Stable sort by a boolean comparison, embedding `order_by` of the store. -/
def sortBy (le : α → α → Bool) (l : List α) : List α :=
  l.foldr (insertSorted le) []

/-- `Question.query.order_by(Question.id).all()`. -/
def sortById (qs : List Question) : List Question :=
  sortBy (fun a b => decide (a.id ≤ b.id)) qs

/-- `Category.query.order_by(Category.type).all()`. -/
def sortByType (cs : List Category) : List Category :=
  sortBy (fun a b => charListLe a.type b.type) cs

deriving instance DecidableEq for Except

/-- The SQLAlchemy `one_or_none()`: `none` for an empty result, the row for a
singleton result, and a raised `MultipleResultsFound` (the `.error` case)
otherwise. -/
def one_or_none : List α → Except Unit (Option α)
  | [] => .ok none
  | [a] => .ok (some a)
  | _ => .error ()

/-- Case-insensitive character comparison, as used by `ILIKE`. -/
def lowerEq (a b : Char) : Bool := a.toLower == b.toLower

/-- SQL `ILIKE` pattern matching over characters: `%` matches any character
sequence (the remainder of the pattern may consume any suffix of the string),
`_` matches any single character, a backslash escapes the following pattern
character, and every other character matches case-insensitively. -/
def ilikeMatch : List Char → List Char → Bool
  | [], s => s.isEmpty
  | c :: p, s =>
    if c = '%' then
      s.tails.any (fun t => ilikeMatch p t)
    else if c = '_' then
      match s with
      | [] => false
      | _ :: s2 => ilikeMatch p s2
    else if c = '\\' then
      match p with
      | [] => false
      | e :: p2 =>
        match s with
        | [] => false
        | d :: s2 => lowerEq e d && ilikeMatch p2 s2
    else
      match s with
      | [] => false
      | d :: s2 => lowerEq c d && ilikeMatch p s2

/-- A term free of the `ILIKE` metacharacters `%`, `_` and backslash. -/
def isLiteral (t : List Char) : Bool :=
  t.all (fun c => !(c = '%' || c = '_' || c = '\\'))

/-- The notion "contains the term case-insensitively" of the spec: the lower-cased term is
a contiguous substring of the lower-cased text. -/
def containsCI (term text : List Char) : Bool :=
  decide ((term.map Char.toLower) <:+: (text.map Char.toLower))

/-- Success body of `GET /categories`. -/
structure CategoriesBody where
  categories : List (Nat × List Char)
deriving DecidableEq

/-- Success body of `GET /questions`. -/
structure QuestionsBody where
  questions : List FormattedQuestion
  total_questions : Nat
  categories : List (Nat × List Char)
  current_category : Option (List Char)
deriving DecidableEq

/-- Success body of `DELETE /questions/{id}`. -/
structure DeleteBody where
  deleted : Nat
  questions : List FormattedQuestion
  total_questions : Nat
deriving DecidableEq

/-- Success body of `POST /questions`. -/
structure CreatedBody where
  created : Nat
  questions : List FormattedQuestion
  total_questions : Nat
deriving DecidableEq

/-- Request body of `POST /questions`: the four `body.get(...)` fields, each
possibly missing or null. -/
structure CreateRequest where
  question : Option (List Char)
  answer : Option (List Char)
  difficulty : Option Int
  category : Option Nat
deriving DecidableEq

/-- Request body of `POST /questions/search`. -/
structure SearchRequest where
  searchTerm : Option (List Char)
deriving DecidableEq

/-- Success body of `POST /questions/search`. -/
structure SearchResultBody where
  questions : List FormattedQuestion
  total_questions : Nat
  current_category : Option (List Char)
deriving DecidableEq

/-- Success body of `GET /categories/{id}/questions`. -/
structure CategoryQuestionsBody where
  questions : List FormattedQuestion
  total_questions : Nat
  current_category : Option (List Char)
deriving DecidableEq

/-- `retrieve_categories` (`GET /categories`). -/
def retrieve_categories (s : Store) : Except Nat CategoriesBody × Store :=
  let categories := sortByType s.categories
  if categories.length = 0 then (.error 404, s)
  else (.ok { categories := categories.map (fun c => (c.id, c.type)) }, s)

/-- `retrieve_questions` (`GET /questions?page=N`). -/
def retrieve_questions (s : Store) (page : Int) :
    Except Nat QuestionsBody × Store :=
  let selection := sortById s.questions
  let current_questions := paginate_questions page selection
  let categories := sortByType s.categories
  if current_questions.length = 0 then (.error 404, s)
  else
    (.ok { questions := current_questions,
           total_questions := s.questions.length,
           categories := categories.map (fun c => (c.id, c.type)),
           current_category := none }, s)

/-- The `try` block of `delete_question`: the not-found lookup raises 404, a
`MultipleResultsFound` from `one_or_none` raises a non-HTTP exception (coded 0
here); on the happy path the row is deleted and the new listing is returned. -/
def delete_question_try (s : Store) (question_id : Nat) (page : Int) :
    Except Nat (DeleteBody × Store) :=
  match one_or_none (s.questions.filter (fun q => q.id == question_id)) with
  | .error _ => .error 0
  | .ok none => .error 404
  | .ok (some _) =>
    let s2 : Store :=
      { s with questions := s.questions.filter (fun q => !(q.id == question_id)) }
    let selection := sortById s2.questions
    let current_questions := paginate_questions page selection
    .ok ({ deleted := question_id, questions := current_questions,
           total_questions := s2.questions.length }, s2)

/-- `delete_question` (`DELETE /questions/{id}`): the bare `except:` catches
every exception raised in the `try` block — the `abort(404)` of the lookup
included — and maps it to `abort(422)`. -/
def delete_question (s : Store) (question_id : Nat) (page : Int) :
    Except Nat DeleteBody × Store :=
  match delete_question_try s question_id page with
  | .ok (b, s2) => (.ok b, s2)
  | .error _ => (.error 422, s)

/-- Modelled from the spec: the store assigns each created question a fresh id
not previously used (§8); `models.py`, which holds `insert`, is absent from
`src/`. -/
def freshId (s : Store) : Nat :=
  (s.questions.map Question.id).foldr max 0 + 1

/-- `create_question` (`POST /questions`): aborts 422 when any of the four
fields is missing or null, otherwise inserts and returns the new listing. -/
def create_question (s : Store) (body : CreateRequest) (page : Int) :
    Except Nat CreatedBody × Store :=
  match body.question, body.answer, body.difficulty, body.category with
  | some q, some a, some d, some c =>
    let qid := freshId s
    let s2 : Store :=
      { s with questions := s.questions ++
          [{ id := qid, question := q, answer := a, difficulty := d, category := c }] }
    let selection := sortById s2.questions
    (.ok { created := qid, questions := paginate_questions page selection,
           total_questions := s2.questions.length }, s2)
  | _, _, _, _ => (.error 422, s)

/-- `search_questions` (`POST /questions/search`): a falsy `searchTerm`
(missing, null or empty) aborts 400; otherwise the questions are filtered with
the ILIKE pattern `%term%`, an empty result aborts 404, and a non-empty one is paginated
and returned with the match count. -/
def search_questions (s : Store) (body : SearchRequest) (page : Int) :
    Except Nat SearchResultBody × Store :=
  match body.searchTerm with
  | none => (.error 400, s)
  | some t =>
    if t.isEmpty then (.error 400, s)
    else
      let selection := s.questions.filter
        (fun q => ilikeMatch ('%' :: (t ++ ['%'])) q.question)
      if selection.length = 0 then (.error 404, s)
      else
        (.ok { questions := paginate_questions page selection,
               total_questions := selection.length,
               current_category := none }, s)

/-- `retrieve_questions_by_category` (`GET /categories/{id}/questions`): 404
when the category does not exist; an uncaught `MultipleResultsFound` would
surface as a 500. -/
def retrieve_questions_by_category (s : Store) (category_id : Nat) (page : Int) :
    Except Nat CategoryQuestionsBody × Store :=
  match one_or_none (s.categories.filter (fun c => c.id == category_id)) with
  | .error _ => (.error 500, s)
  | .ok none => (.error 404, s)
  | .ok (some cat) =>
    let selection := s.questions.filter (fun q => q.category == category_id)
    (.ok { questions := paginate_questions page selection,
           total_questions := s.questions.length,
           current_category := some cat.type }, s)

/-- The uniform error body produced by a registered error handler. -/
structure ErrorBody where
  success : Bool
  error : Nat
  message : List Char
deriving DecidableEq

/-- The error handlers registered with `@app.errorhandler`: 404, 422 and 405.
A status code with no registered handler (`none`) is answered with the
default error page of the framework, not with the uniform JSON body. -/
def errorResponse : Nat → Option ErrorBody
  | 404 => some { success := false, error := 404, message := "Resource not found".toList }
  | 422 => some { success := false, error := 422, message := "unprocessable".toList }
  | 405 => some { success := false, error := 405, message := "method not allowed".toList }
  | _ => none

/-- Quiz response body: `success` and a nullable `question`. -/
structure QuizResponse where
  success : Bool
  question : Option FormattedQuestion
deriving DecidableEq

/-- Modelled from the spec: the eligible set of §4.8 — the questions matching
the category selector (`none` or `some 0` meaning no filter) minus those whose
id appears in `previous_questions`.  The `POST /quizzes` handler is absent from
`src/backend/flaskr/__init__.py` (only a TODO comment and its tests exist). -/
def eligibleQuestions (s : Store) (previous_questions : List Nat)
    (quiz_category : Option Nat) : List Question :=
  (match quiz_category with
   | none => s.questions
   | some 0 => s.questions
   | some cid => s.questions.filter (fun q => q.category == cid)).filter
    (fun q => !(previous_questions.contains q.id))

/-- Modelled from the spec: the `POST /quizzes` handler of §4.8, absent from
`src/`.  The uniformly random draw is embedded by an arbitrary index `k`,
reduced modulo the size of the eligible set; an empty eligible set yields
`success` with a null question. -/
def play_quiz (s : Store) (previous_questions : List Nat)
    (quiz_category : Option Nat) (k : Nat) : QuizResponse :=
  let eligible := eligibleQuestions s previous_questions quiz_category
  if h : eligible.length = 0 then { success := true, question := none }
  else
    { success := true,
      question := some (Question.format
        (eligible.get ⟨k % eligible.length, Nat.mod_lt k (Nat.pos_of_ne_zero h)⟩)) }

/-! ### Helper lemmas -/

theorem length_insertSorted (le : α → α → Bool) (a : α) (l : List α) :
    (insertSorted le a l).length = l.length + 1 := by
  induction l with
  | nil => rfl
  | cons b l ih =>
    simp only [insertSorted]
    split <;> simp [ih]

theorem length_sortBy (le : α → α → Bool) (l : List α) :
    (sortBy le l).length = l.length := by
  induction l with
  | nil => rfl
  | cons a l ih =>
    simp only [sortBy, List.foldr_cons] at ih ⊢
    rw [length_insertSorted, ih, List.length_cons]

theorem length_sortById (qs : List Question) : (sortById qs).length = qs.length :=
  length_sortBy _ qs

theorem mem_insertSorted {le : α → α → Bool} {a b : α} {l : List α} :
    b ∈ insertSorted le a l ↔ b = a ∨ b ∈ l := by
  induction l with
  | nil => simp [insertSorted]
  | cons c l ih =>
    simp only [insertSorted]
    split
    · simp [List.mem_cons]
    · simp only [List.mem_cons, ih]
      tauto

theorem mem_sortBy {le : α → α → Bool} {b : α} {l : List α} :
    b ∈ sortBy le l ↔ b ∈ l := by
  induction l with
  | nil => simp [sortBy]
  | cons a l ih =>
    simp only [sortBy, List.foldr_cons] at ih ⊢
    rw [mem_insertSorted, ih, List.mem_cons]

theorem pyIdx_nonneg (n : Nat) {i : Int} (h : 0 ≤ i) :
    pyIdx n i = min i.toNat n := by
  simp [pyIdx, Int.not_lt.mpr h]

theorem take_min_length (l : List α) (b : Nat) :
    l.take (min b l.length) = l.take b := by
  rcases Nat.le_total b l.length with h | h
  · rw [Nat.min_eq_left h]
  · rw [Nat.min_eq_right h, List.take_length, List.take_of_length_le h]

theorem drop_min_of_le (m : List α) (a n : Nat) (h : m.length ≤ n) :
    m.drop (min a n) = m.drop a := by
  rcases Nat.le_total a n with h2 | h2
  · rw [Nat.min_eq_left h2]
  · rw [Nat.min_eq_right h2, List.drop_eq_nil_of_le h,
      List.drop_eq_nil_of_le (Nat.le_trans h h2)]

theorem pySlice_nonneg (l : List α) {i j : Int} (hi : 0 ≤ i) (hj : 0 ≤ j) :
    pySlice l i j = (l.drop i.toNat).take (j.toNat - i.toNat) := by
  rw [pySlice, pyIdx_nonneg _ hi, pyIdx_nonneg _ hj, take_min_length,
    drop_min_of_le _ _ _ (by simp [List.length_take])]
  rcases Nat.le_total i.toNat j.toNat with h | h
  · have : j.toNat = i.toNat + (j.toNat - i.toNat) := by omega
    rw [List.take_drop, ← this]
  · have h1 : j.toNat - i.toNat = 0 := by omega
    have h2 : (l.take j.toNat).length ≤ i.toNat := by
      simp only [List.length_take]
      omega
    rw [h1, List.drop_eq_nil_of_le h2, List.take_zero]

theorem paginate_questions_eq (page : Int) (sel : List Question) (h : 1 ≤ page) :
    paginate_questions page sel
      = ((sel.map Question.format).drop (((page - 1) * 10).toNat)).take 10 := by
  have h0 : (0 : Int) ≤ (page - 1) * 10 := by omega
  simp only [paginate_questions, QUESTIONS_PER_PAGE, Nat.cast_ofNat]
  rw [pySlice_nonneg _ h0 (by omega), Int.toNat_add h0 (by omega)]
  simp

theorem paginate_questions_empty (page : Int) (sel : List Question)
    (h1 : 1 ≤ page) (h2 : (sel.length : Int) ≤ (page - 1) * 10) :
    paginate_questions page sel = [] := by
  rw [paginate_questions_eq page sel h1, List.drop_eq_nil_of_le, List.take_nil]
  have := Int.toNat_le_toNat h2
  simpa using this

theorem mem_paginate {fq : FormattedQuestion} {page : Int} {sel : List Question}
    (h : fq ∈ paginate_questions page sel) : ∃ q, q ∈ sel ∧ fq = q.format := by
  have h2 : fq ∈ sel.map Question.format := by
    simp only [paginate_questions, pySlice] at h
    exact List.mem_of_mem_take (List.mem_of_mem_drop h)
  rcases List.mem_map.mp h2 with ⟨q, hq, hfmt⟩
  exact ⟨q, hq, hfmt.symm⟩

/-! ### ILIKE pattern lemmas -/

theorem ilikeMatch_nil_eq (s : List Char) : ilikeMatch [] s = s.isEmpty := by
  rw [ilikeMatch.eq_def]

theorem ilikeMatch_pct (p s : List Char) :
    ilikeMatch ('%' :: p) s = true ↔ ∃ t, t <:+ s ∧ ilikeMatch p t = true := by
  rw [ilikeMatch.eq_def]
  simp [List.any_eq_true, List.mem_tails]

theorem ilikeMatch_pct_single (s : List Char) : ilikeMatch ['%'] s = true := by
  rw [ilikeMatch_pct]
  exact ⟨[], List.nil_suffix, by rw [ilikeMatch_nil_eq]; rfl⟩

theorem ilikeMatch_lit_nil {c : Char} {p : List Char}
    (hc1 : ¬c = '%') (hc2 : ¬c = '_') (hc3 : ¬c = '\\') :
    ilikeMatch (c :: p) [] = false := by
  rw [ilikeMatch.eq_def]
  simp only [if_neg hc1, if_neg hc2, if_neg hc3]

theorem ilikeMatch_lit_cons {c : Char} {p : List Char} {d : Char} {s2 : List Char}
    (hc1 : ¬c = '%') (hc2 : ¬c = '_') (hc3 : ¬c = '\\') :
    ilikeMatch (c :: p) (d :: s2) = (lowerEq c d && ilikeMatch p s2) := by
  rw [ilikeMatch.eq_def]
  simp only [if_neg hc1, if_neg hc2, if_neg hc3]

theorem isLiteral_cons {c : Char} {p : List Char} (h : isLiteral (c :: p) = true) :
    ¬c = '%' ∧ ¬c = '_' ∧ ¬c = '\\' ∧ isLiteral p = true := by
  simpa [isLiteral, and_assoc] using h

theorem ilikeMatch_literal {p : List Char} (hp : isLiteral p = true) :
    ∀ s, (ilikeMatch p s = true ↔ s.map Char.toLower = p.map Char.toLower) := by
  induction p with
  | nil => intro s; simp [ilikeMatch_nil_eq]
  | cons c p ih =>
    obtain ⟨hc1, hc2, hc3, hp2⟩ := isLiteral_cons hp
    intro s
    cases s with
    | nil => simp [ilikeMatch_lit_nil hc1 hc2 hc3]
    | cons d s2 =>
      rw [ilikeMatch_lit_cons hc1 hc2 hc3]
      simp only [Bool.and_eq_true, lowerEq, beq_iff_eq, List.map_cons,
        List.cons.injEq, ih hp2 s2]
      constructor
      · rintro ⟨h1, h2⟩; exact ⟨h1.symm, h2⟩
      · rintro ⟨h1, h2⟩; exact ⟨h1.symm, h2⟩

theorem ilikeMatch_literal_pct {q : List Char} (hq : isLiteral q = true) :
    ∀ s, (ilikeMatch (q ++ ['%']) s = true ↔
      ∃ a b, s = a ++ b ∧ a.map Char.toLower = q.map Char.toLower) := by
  induction q with
  | nil =>
    intro s
    simp only [List.nil_append, ilikeMatch_pct_single, List.map_nil,
      List.map_eq_nil_iff, true_iff]
    exact ⟨[], s, rfl, rfl⟩
  | cons c q ih =>
    obtain ⟨hc1, hc2, hc3, hq2⟩ := isLiteral_cons hq
    intro s
    cases s with
    | nil =>
      rw [List.cons_append, ilikeMatch_lit_nil hc1 hc2 hc3]
      simp only [Bool.false_eq_true, false_iff]
      rintro ⟨a, b, hab, hmap⟩
      rcases List.append_eq_nil.mp hab.symm with ⟨rfl, rfl⟩
      simp at hmap
    | cons d s2 =>
      rw [List.cons_append, ilikeMatch_lit_cons hc1 hc2 hc3]
      simp only [Bool.and_eq_true, lowerEq, beq_iff_eq]
      constructor
      · rintro ⟨hcd, hm⟩
        rcases (ih hq2 s2).mp hm with ⟨a, b, rfl, hmap⟩
        exact ⟨d :: a, b, rfl, by simp [hmap, hcd.symm]⟩
      · rintro ⟨a, b, hab, hmap⟩
        cases a with
        | nil => simp at hmap
        | cons x a2 =>
          simp only [List.cons_append, List.cons.injEq] at hab
          obtain ⟨rfl, hs2⟩ := hab
          simp only [List.map_cons, List.cons.injEq] at hmap
          exact ⟨hmap.1.symm, (ih hq2 s2).mpr ⟨a2, b, hs2, hmap.2⟩⟩

theorem ilikeMatch_literal_contains {t : List Char} (ht : isLiteral t = true)
    (s : List Char) :
    ilikeMatch ('%' :: (t ++ ['%'])) s = containsCI t s := by
  rw [Bool.eq_iff_iff]
  rw [containsCI, decide_eq_true_iff, ilikeMatch_pct]
  constructor
  · rintro ⟨u, ⟨v, hv⟩, hm⟩
    rcases (ilikeMatch_literal_pct ht u).mp hm with ⟨a, b, rfl, hmap⟩
    refine ⟨v.map Char.toLower, b.map Char.toLower, ?_⟩
    rw [← hv]
    simp [hmap, List.append_assoc]
  · rintro ⟨x, y, hxy⟩
    have h1 : s.map Char.toLower = x ++ (t.map Char.toLower ++ y) := by
      rw [← hxy]; simp [List.append_assoc]
    rcases List.map_eq_append_iff.mp h1 with ⟨v, w, rfl, hxv, hw⟩
    rcases List.map_eq_append_iff.mp hw with ⟨a, b, rfl, ha, hb⟩
    exact ⟨a ++ b, ⟨v, rfl⟩, (ilikeMatch_literal_pct ht _).mpr ⟨a, b, rfl, ha⟩⟩

theorem search_filter_literal {t : List Char} (ht : isLiteral t = true)
    (qs : List Question) :
    qs.filter (fun q => ilikeMatch ('%' :: (t ++ ['%'])) q.question)
      = qs.filter (fun q => containsCI t q.question) :=
  List.filter_congr (fun q _ => ilikeMatch_literal_contains ht q.question)

/-! ### Quiz and eligibility lemmas -/

theorem mem_eligibleQuestions {s : Store} {prev : List Nat} {sel : Option Nat}
    {q : Question} (h : q ∈ eligibleQuestions s prev sel) :
    q ∈ s.questions ∧ prev.contains q.id = false ∧
      ∀ c, sel = some c → c ≠ 0 → q.category = c := by
  cases sel with
  | none =>
    simp only [eligibleQuestions] at h
    rcases List.mem_filter.mp h with ⟨hbase, hc⟩
    exact ⟨hbase, by simpa using hc, fun c hc2 => by cases hc2⟩
  | some c =>
    cases c with
    | zero =>
      simp only [eligibleQuestions] at h
      rcases List.mem_filter.mp h with ⟨hbase, hc⟩
      refine ⟨hbase, by simpa using hc, ?_⟩
      rintro c2 hc2 h0
      injection hc2 with h2
      exact absurd h2.symm h0
    | succ n =>
      simp only [eligibleQuestions] at h
      rcases List.mem_filter.mp h with ⟨hbase, hc⟩
      rcases List.mem_filter.mp hbase with ⟨hq, hcat⟩
      refine ⟨hq, by simpa using hc, ?_⟩
      rintro c2 hc2 h0
      injection hc2 with h2
      rw [← h2]
      exact beq_iff_eq.mp hcat

/-! ### Claim theorems -/

/-- Claim C4: for every requested page `p ≥ 1` and item list, the pagination
helper returns exactly the Python slice `items[(p-1)*10 : (p-1)*10+10]` of the
formatted items — and in particular the empty list, never an error, whenever
`(p-1)*10 ≥ length items`. -/
theorem paginate_returns_slice (page : Int) (sel : List Question) (h : 1 ≤ page) :
    paginate_questions page sel
        = ((sel.map Question.format).drop (((page - 1) * 10).toNat)).take 10
      ∧ (((sel.map Question.format).length : Int) ≤ (page - 1) * 10 →
          paginate_questions page sel = []) := by
  refine ⟨paginate_questions_eq page sel h, fun h2 => ?_⟩
  exact paginate_questions_empty page sel h (by simpa using h2)

theorem paginate_returns_slice_witness :
    ((1 : Int) ≤ 2) ∧
    (paginate_questions 2 [⟨1, "q".toList, "a".toList, 1, 1⟩]
        = (([⟨1, "q".toList, "a".toList, 1, 1⟩].map Question.format).drop
            ((((2 : Int) - 1) * 10).toNat)).take 10
      ∧ ((([(⟨1, "q".toList, "a".toList, 1, 1⟩ : Question)].map
            Question.format).length : Int) ≤ ((2 : Int) - 1) * 10 →
          paginate_questions 2 [⟨1, "q".toList, "a".toList, 1, 1⟩] = [])) :=
  ⟨by decide, paginate_returns_slice 2 [⟨1, "q".toList, "a".toList, 1, 1⟩] (by decide)⟩

/-- Claim C9: for requested page 0 the helper computes the slice
`items[-10:0]`, which is empty for every item list, and `GET /questions?page=0`
therefore always signals NotFound (404). -/
theorem paginate_page_zero_empty :
    (∀ sel : List Question, paginate_questions 0 sel = []) ∧
    (∀ s : Store, (retrieve_questions s 0).1 = .error 404) := by
  have hp : ∀ sel : List Question, paginate_questions 0 sel = [] := by
    intro sel
    simp [paginate_questions, pySlice, pyIdx, QUESTIONS_PER_PAGE]
  refine ⟨hp, fun s => ?_⟩
  simp [retrieve_questions, hp]

/-- Claim C5: for every store and requested page `p ≥ 1` with
`(p-1)*10 ≥ n` (`n` the number of stored questions, `n = 0` included),
`GET /questions` signals NotFound (404). -/
theorem retrieve_questions_beyond_404 (s : Store) (page : Int)
    (h1 : 1 ≤ page) (h2 : (s.questions.length : Int) ≤ (page - 1) * 10) :
    (retrieve_questions s page).1 = .error 404 := by
  have hp : paginate_questions page (sortById s.questions) = [] :=
    paginate_questions_empty _ _ h1 (by rwa [length_sortById])
  simp [retrieve_questions, hp]

theorem retrieve_questions_beyond_404_witness :
    ((1 : Int) ≤ 2) ∧
    (((Store.mk [⟨1, "q".toList, "a".toList, 1, 1⟩] []).questions.length : Int)
        ≤ ((2 : Int) - 1) * 10) ∧
    (retrieve_questions ⟨[⟨1, "q".toList, "a".toList, 1, 1⟩], []⟩ 2).1
        = .error 404 :=
  ⟨by decide, by decide,
    retrieve_questions_beyond_404 ⟨[⟨1, "q".toList, "a".toList, 1, 1⟩], []⟩ 2
      (by decide) (by decide)⟩

/-- Claim C6: a `POST /questions` body with any of the four required fields
missing or null is answered Unprocessable (422) and leaves the store — in
particular the total question count — unchanged. -/
theorem create_question_missing_field_422 (s : Store) (body : CreateRequest)
    (page : Int)
    (h : body.question = none ∨ body.answer = none ∨ body.difficulty = none ∨
      body.category = none) :
    (create_question s body page).1 = .error 422 ∧
      (create_question s body page).2 = s := by
  obtain ⟨q, a, d, c⟩ := body
  cases q <;> cases a <;> cases d <;> cases c <;> simp_all [create_question]

theorem create_question_missing_field_422_witness :
    ((⟨none, none, none, none⟩ : CreateRequest).question = none ∨
      (⟨none, none, none, none⟩ : CreateRequest).answer = none ∨
      (⟨none, none, none, none⟩ : CreateRequest).difficulty = none ∨
      (⟨none, none, none, none⟩ : CreateRequest).category = none) ∧
    ((create_question ⟨[], []⟩ ⟨none, none, none, none⟩ 1).1 = .error 422 ∧
      (create_question ⟨[], []⟩ ⟨none, none, none, none⟩ 1).2 = ⟨[], []⟩) :=
  ⟨Or.inl rfl,
    create_question_missing_field_422 ⟨[], []⟩ ⟨none, none, none, none⟩ 1 (Or.inl rfl)⟩

/-- Claim C1 counterexample: with an empty store, `DELETE /questions/7`
answers 422, not the 404 the claim asserts for a nonexistent id. -/
theorem delete_question_nonexistent_counterexample :
    (delete_question ⟨[], []⟩ 7 1).1 = .error 422 ∧
      ¬((delete_question ⟨[], []⟩ 7 1).1 = .error 404) := by decide

/-- Claim C1 (amended): deleting a nonexistent id signals Unprocessable (422),
not NotFound — the `abort(404)` of the lookup is raised inside the `try` block and
the blanket `except` converts it to 422 — and the store is left unchanged. -/
theorem delete_question_nonexistent_422 (s : Store) (question_id : Nat)
    (page : Int)
    (h : s.questions.filter (fun q => q.id == question_id) = []) :
    delete_question s question_id page = (.error 422, s) := by
  simp [delete_question, delete_question_try, h, one_or_none]

theorem delete_question_nonexistent_422_witness :
    ((Store.mk [] []).questions.filter (fun q => q.id == 7) = []) ∧
      delete_question ⟨[], []⟩ 7 1 = (.error 422, ⟨[], []⟩) :=
  ⟨by decide, delete_question_nonexistent_422 ⟨[], []⟩ 7 1 (by decide)⟩

/-- Claim C10: none of the four read operations — `GET /categories`,
`GET /questions`, `POST /questions/search`, `GET /categories/{id}/questions` —
modifies the store: each returns the starting store unchanged. -/
theorem read_endpoints_preserve_store (s : Store) (page : Int)
    (body : SearchRequest) (category_id : Nat) :
    (retrieve_categories s).2 = s ∧ (retrieve_questions s page).2 = s ∧
    (search_questions s body page).2 = s ∧
    (retrieve_questions_by_category s category_id page).2 = s := by
  refine ⟨?_, ?_, ?_, ?_⟩
  · simp only [retrieve_categories]
    split <;> rfl
  · simp only [retrieve_questions]
    split <;> rfl
  · rcases body with ⟨_ | t⟩
    · rfl
    · simp only [search_questions]
      split
      · rfl
      · split <;> rfl
  · simp only [retrieve_questions_by_category]
    split <;> rfl

/-- Claim C3: the error handlers registered in the app produce the uniform
body `{success := false, error := code, message}` for 404, 422 and 405, but no
handler is registered for 400: `errorResponse 400 = none`, so an `abort(400)`
is answered with the framework default page, not the uniform JSON body the
claim asserts for code 400. -/
theorem error_handlers_uniform_except_400 :
    errorResponse 400 = none ∧
    errorResponse 404 = some ⟨false, 404, "Resource not found".toList⟩ ∧
    errorResponse 422 = some ⟨false, 422, "unprocessable".toList⟩ ∧
    errorResponse 405 = some ⟨false, 405, "method not allowed".toList⟩ := by
  refine ⟨rfl, by decide, by decide, by decide⟩

/-- Claim C7: when a category with the requested id exists, the response is a
success whose `questions` are exactly the paginated questions with that exact
category value, whose `total_questions` is the count of all stored questions
(not only those of the category), and whose `current_category` is the
type string of the category. -/
theorem retrieve_by_category_spec (s : Store) (category_id : Nat) (page : Int)
    (cat : Category)
    (h : s.categories.filter (fun c => c.id == category_id) = [cat]) :
    ∃ b, (retrieve_questions_by_category s category_id page).1 = .ok b ∧
      b.questions = paginate_questions page
        (s.questions.filter (fun q => q.category == category_id)) ∧
      (∀ fq ∈ b.questions, fq.category = category_id) ∧
      b.total_questions = s.questions.length ∧
      b.current_category = some cat.type := by
  simp only [retrieve_questions_by_category, h, one_or_none]
  refine ⟨_, rfl, rfl, ?_, rfl, rfl⟩
  intro fq hfq
  rcases mem_paginate hfq with ⟨q, hq, rfl⟩
  exact beq_iff_eq.mp (List.mem_filter.mp hq).2

theorem retrieve_by_category_spec_witness :
    ((Store.mk [⟨1, "q".toList, "a".toList, 1, 2⟩] [⟨2, "Art".toList⟩]).categories.filter
        (fun c => c.id == 2) = [⟨2, "Art".toList⟩]) ∧
    (∃ b, (retrieve_questions_by_category
          ⟨[⟨1, "q".toList, "a".toList, 1, 2⟩], [⟨2, "Art".toList⟩]⟩ 2 1).1 = .ok b ∧
      b.questions = paginate_questions 1
        ((Store.mk [⟨1, "q".toList, "a".toList, 1, 2⟩] [⟨2, "Art".toList⟩]).questions.filter
          (fun q => q.category == 2)) ∧
      (∀ fq ∈ b.questions, fq.category = 2) ∧
      b.total_questions
        = (Store.mk [⟨1, "q".toList, "a".toList, 1, 2⟩] [⟨2, "Art".toList⟩]).questions.length ∧
      b.current_category = some (Category.mk 2 "Art".toList).type) :=
  ⟨by decide,
    retrieve_by_category_spec
      ⟨[⟨1, "q".toList, "a".toList, 1, 2⟩], [⟨2, "Art".toList⟩]⟩ 2 1
      ⟨2, "Art".toList⟩ (by decide)⟩

/-- Claim C2 (spec-modelled): for a well-formed `POST /quizzes` body, if the
eligible set (questions matching the selector — all questions for selector
`none`/`0` — minus those whose id is in `previous_questions`) is non-empty,
the response is success with a question drawn from the eligible set: its id is
not in `previous_questions` and, when a non-zero category is selected, its
category matches; if the eligible set is empty the response is success with a
null question, not an error. -/
theorem play_quiz_spec (s : Store) (previous_questions : List Nat)
    (quiz_category : Option Nat) (k : Nat) :
    (eligibleQuestions s previous_questions quiz_category = [] →
      play_quiz s previous_questions quiz_category k
        = { success := true, question := none }) ∧
    (eligibleQuestions s previous_questions quiz_category ≠ [] →
      ∃ q, q ∈ eligibleQuestions s previous_questions quiz_category ∧
        q ∈ s.questions ∧
        play_quiz s previous_questions quiz_category k
          = { success := true, question := some q.format } ∧
        previous_questions.contains q.id = false ∧
        (∀ c, quiz_category = some c → c ≠ 0 → q.category = c)) := by
  constructor
  · intro he
    simp [play_quiz, he]
  · intro hne
    have hlen : (eligibleQuestions s previous_questions quiz_category).length ≠ 0 := by
      simpa [List.length_eq_zero] using hne
    refine ⟨(eligibleQuestions s previous_questions quiz_category).get
      ⟨k % _, Nat.mod_lt k (Nat.pos_of_ne_zero hlen)⟩, List.get_mem _ _ _, ?_, ?_⟩
    · exact (mem_eligibleQuestions (List.get_mem _ _ _)).1
    refine ⟨?_, ?_, ?_⟩
    · simp only [play_quiz]
      rw [dif_neg hlen]
    · exact (mem_eligibleQuestions (List.get_mem _ _ _)).2.1
    · exact (mem_eligibleQuestions (List.get_mem _ _ _)).2.2

theorem play_quiz_spec_witness :
    (eligibleQuestions
        ⟨[⟨20, "q1".toList, "a".toList, 1, 1⟩, ⟨21, "q2".toList, "a".toList, 1, 1⟩,
          ⟨22, "q3".toList, "a".toList, 1, 1⟩], []⟩ [20, 21] (some 1) ≠ []) ∧
    (∃ q, q ∈ eligibleQuestions
          ⟨[⟨20, "q1".toList, "a".toList, 1, 1⟩, ⟨21, "q2".toList, "a".toList, 1, 1⟩,
            ⟨22, "q3".toList, "a".toList, 1, 1⟩], []⟩ [20, 21] (some 1) ∧
      q ∈ (Store.mk
          [⟨20, "q1".toList, "a".toList, 1, 1⟩, ⟨21, "q2".toList, "a".toList, 1, 1⟩,
            ⟨22, "q3".toList, "a".toList, 1, 1⟩] []).questions ∧
      play_quiz
          ⟨[⟨20, "q1".toList, "a".toList, 1, 1⟩, ⟨21, "q2".toList, "a".toList, 1, 1⟩,
            ⟨22, "q3".toList, "a".toList, 1, 1⟩], []⟩ [20, 21] (some 1) 5
        = { success := true, question := some q.format } ∧
      List.contains [20, 21] q.id = false ∧
      (∀ c, (some 1 : Option Nat) = some c → c ≠ 0 → q.category = c)) :=
  ⟨by decide,
    (play_quiz_spec
      ⟨[⟨20, "q1".toList, "a".toList, 1, 1⟩, ⟨21, "q2".toList, "a".toList, 1, 1⟩,
        ⟨22, "q3".toList, "a".toList, 1, 1⟩], []⟩ [20, 21] (some 1) 5).2 (by decide)⟩

/-- Claim C8 counterexample: with the single stored question "abc" and
searchTerm `"%"` (an ILIKE wildcard, passed through unescaped), the endpoint
succeeds and returns the question, although the question does not contain
`"%"` case-insensitively and the substring match set of the claim is empty (the
claim would require NotFound). -/
theorem search_questions_wildcard_counterexample :
    (search_questions ⟨[⟨1, "abc".toList, "d".toList, 1, 1⟩], []⟩
        ⟨some "%".toList⟩ 1).1
      = .ok ⟨[⟨1, "abc".toList, "d".toList, 1, 1⟩], 1, none⟩ ∧
    containsCI "%".toList "abc".toList = false ∧
    ([⟨1, "abc".toList, "d".toList, 1, 1⟩] : List Question).filter
        (fun q => containsCI "%".toList q.question) = [] := by decide

/-- Claim C8 (amended): for every search request whose term is non-empty and
free of the ILIKE metacharacters `%`, `_`, `\\`, if no stored question
contains the term case-insensitively the endpoint signals NotFound (404);
otherwise every question in the success response contains the term
case-insensitively in its question text and `total_questions` equals the
number of matching questions, not the global count. -/
theorem search_questions_literal_spec (s : Store) (t : List Char) (page : Int)
    (hlit : isLiteral t = true) (hne : t ≠ []) :
    ((s.questions.filter (fun q => containsCI t q.question)) = [] →
      (search_questions s ⟨some t⟩ page).1 = .error 404) ∧
    (∀ b, (search_questions s ⟨some t⟩ page).1 = .ok b →
      (∀ fq ∈ b.questions, containsCI t fq.question = true) ∧
      b.total_questions
        = (s.questions.filter (fun q => containsCI t q.question)).length) := by
  have hemp : t.isEmpty = false := by
    cases t with
    | nil => exact absurd rfl hne
    | cons c l => rfl
  have hfil := search_filter_literal hlit s.questions
  constructor
  · intro hmatch
    simp [search_questions, hemp, hfil, hmatch]
  · intro b hb
    simp only [search_questions, hemp, Bool.false_eq_true, if_false] at hb
    rw [hfil] at hb
    by_cases hz : (s.questions.filter (fun q => containsCI t q.question)).length = 0
    · rw [if_pos hz] at hb
      cases hb
    · rw [if_neg hz] at hb
      injection hb with hb2
      subst hb2
      refine ⟨?_, rfl⟩
      intro fq hfq
      rcases mem_paginate hfq with ⟨q, hq, rfl⟩
      exact (List.mem_filter.mp hq).2

theorem search_questions_literal_spec_witness :
    (∀ fq ∈ (SearchResultBody.mk [⟨1, "abc".toList, "d".toList, 1, 1⟩] 1 none).questions,
        containsCI "a".toList fq.question = true) ∧
      (SearchResultBody.mk [⟨1, "abc".toList, "d".toList, 1, 1⟩] 1 none).total_questions
        = (([⟨1, "abc".toList, "d".toList, 1, 1⟩] : List Question).filter
            (fun q => containsCI "a".toList q.question)).length :=
  (search_questions_literal_spec ⟨[⟨1, "abc".toList, "d".toList, 1, 1⟩], []⟩
      "a".toList 1 (by decide) (by decide)).2
    ⟨[⟨1, "abc".toList, "d".toList, 1, 1⟩], 1, none⟩ (by decide)

end Trivia
